import Mathlib

/-!
Verification of the chat-margins core against its specification.

The repository annotates free-form writing with AI-generated margin notes.
This file shallowly embeds the core logic:
  - the response parser and fallback logic of the Gemini client
    (src/gemini.js, and the adaptive two-stage variant);
  - the paragraph segmenter, trigger controller and note lifecycle
    (src/App.jsx);
  - the position tracker (calculateParagraphPositions in src/App.jsx);
  - the startup load of the persisted note mapping.
The external text-generation service is modelled as an oracle that either
succeeds with a raw string or rejects; the browser measurement facility is
modelled as an arbitrary height function inside the layout metrics.
-/

namespace ChatMargins

/-- JS whitespace, restricted to the ASCII characters relevant here
(the `\s` class and `String.prototype.trim` also cover Unicode spaces,
which never occur in the strings this development reasons about). -/
def isJsWs (c : Char) : Bool :=
  c = ' ' || c = '\t' || c = '\n' || c = '\r' || c = '\x0b' || c = '\x0c'

/-- Trim JS-whitespace from both ends of a character list. -/
def trimL (l : List Char) : List Char :=
  ((l.dropWhile isJsWs).reverse.dropWhile isJsWs).reverse

/-- Embedding of `String.prototype.trim`. -/
def jsTrim (s : String) : String := String.mk (trimL s.data)

/-- ASCII lower-casing of a character, the fragment of
`String.prototype.toLowerCase` exercised by the code. -/
def asciiLower (c : Char) : Char :=
  if 'A' ≤ c ∧ c ≤ 'Z' then Char.ofNat (c.toNat + 32) else c

/-- Lower-case every character of a list. -/
def lowerL (l : List Char) : List Char := l.map asciiLower

/-- Embedding of `String.prototype.toLowerCase`. -/
def jsToLower (s : String) : String := String.mk (lowerL s.data)

/-- Case-insensitive "the pattern is a prefix of the text" check,
modelling a case-insensitive regex literal match. -/
def startsWithCI : List Char → List Char → Bool
  | [], _ => true
  | _ :: _, [] => false
  | p :: ps, c :: cs => asciiLower p == asciiLower c && startsWithCI ps cs

/-- Case-sensitive prefix check, modelling a case-sensitive regex literal. -/
def startsWithCS : List Char → List Char → Bool
  | [], _ => true
  | _ :: _, [] => false
  | p :: ps, c :: cs => p == c && startsWithCS ps cs

/-- Embedding of `responseText.match(/TYPE:\s*(commentary|question)/i)`:
scan left to right for a case-insensitive `TYPE:`; after it, `\s*` greedily
skips whitespace (both alternatives start with a non-whitespace letter, so
maximal munch is equivalent to the regex backtracking) and the alternation
tries `commentary` before `question`.  Returns the captured characters in
their original case, as the regex capture group does. -/
def typeScan : List Char → Option (List Char)
  | [] => none
  | c :: rest =>
    if startsWithCI "TYPE:".data (c :: rest) then
      let afterWs := ((c :: rest).drop 5).dropWhile isJsWs
      if startsWithCI "commentary".data afterWs then some (afterWs.take 10)
      else if startsWithCI "question".data afterWs then some (afterWs.take 8)
      else typeScan rest
    else typeScan rest

/-- Embedding of `responseText.match(/TEXT:\s*(.+)/s)` (case-sensitive, no
`i` flag; `s` makes `.` match newlines): scan for `TEXT:`; the match
succeeds only when at least one character follows.  `\s*` greedily skips
whitespace but backtracks one character when everything after `TEXT:` is
whitespace, so that `.+` still captures one character. -/
def textScan : List Char → Option (List Char)
  | [] => none
  | c :: rest =>
    if startsWithCS "TEXT:".data (c :: rest) then
      let after := (c :: rest).drop 5
      if after.isEmpty then textScan rest
      else
        let k := (after.takeWhile isJsWs).length
        if k = after.length then some (after.drop (k - 1)) else some (after.drop k)
    else textScan rest

/-- Normalized output of the annotation client: `{type, text}` as built by
`generateMarginNote` in src/gemini.js.  `type` stays a raw string exactly as
in the code, so that membership in the two recognized kinds is a theorem and
not a typing artifact. -/
structure AnnotationResult where
  type : String
  text : String
deriving DecidableEq, Repr

/-- Embedding of the response-parsing tail of `generateMarginNote`
(src/gemini.js lines 52-68, identically in the adaptive variant): when
either regex fails to match, degrade to commentary over the whole trimmed
raw output; otherwise lower-case the captured kind and trim the captured
body. -/
def parseResponse (responseText : String) : AnnotationResult :=
  match typeScan responseText.data, textScan responseText.data with
  | some cap, some body =>
    { type := String.mk (lowerL cap), text := jsTrim (String.mk body) }
  | _, _ => { type := "commentary", text := jsTrim responseText }

/-- One observable behavior of the external text-generation collaborator on
a single call: resolve with a raw completion string, or reject. -/
inductive CollabBehavior where
  | success (raw : String)
  | reject
deriving DecidableEq, Repr

/-- Fixed fallback returned by the catch branch of `generateMarginNote`
in src/gemini.js. -/
def connectFallback : AnnotationResult :=
  { type := "commentary"
    text := "I\x27m having trouble connecting right now. Try again in a moment." }

/-- Embedding of `generateMarginNote` (src/gemini.js): the whole body is
wrapped in try/catch, so a collaborator rejection resolves to the fixed
fallback and a success is parsed; the function always resolves. -/
def generateMarginNote (b : CollabBehavior) : AnnotationResult :=
  match b with
  | .success raw => parseResponse raw
  | .reject => connectFallback

/-- Strategy templates of the adaptive client (the unnamed adaptive
variant of gemini.js): one per classification label handled by the
`switch`, plus the `default` fallback template.  The label `other` has no
`case` of its own and reaches `default`, which the spec calls the
generic supportive fallback template for `other`. -/
inductive Template where
  | journaling
  | brainstorming
  | technical
  | storytelling
  | noteTaking
  | fallback
deriving DecidableEq, Repr

/-- Embedding of the `switch (contentType)` template selection of the
adaptive client: five literal cases and a `default` branch. -/
def selectTemplate (contentType : String) : Template :=
  if contentType = "journaling" then .journaling
  else if contentType = "brainstorming" then .brainstorming
  else if contentType = "technical" then .technical
  else if contentType = "storytelling" then .storytelling
  else if contentType = "note-taking" then .noteTaking
  else .fallback

/-- Embedding of `analysisResponse.text().trim().toLowerCase()`, the
Stage-1 normalization of the adaptive client. -/
def normalizeClassification (raw : String) : String := jsToLower (jsTrim raw)

/-- Fixed fallback returned by the catch branch of the adaptive client. -/
def adaptiveFallback : AnnotationResult :=
  { type := "commentary", text := "Unable to generate reflection. Please try again." }

/-- Stage 2 of the adaptive client: invoke the collaborator with the
selected template and parse; a rejection is caught by the enclosing
try/catch and resolves to the fixed fallback.  The collaborator oracle is
a function of the template because the template determines the prompt. -/
def generateStage (g : Template → CollabBehavior) (tmpl : Template) : AnnotationResult :=
  match g tmpl with
  | .reject => adaptiveFallback
  | .success raw => parseResponse raw

/-- Embedding of the adaptive `generateMarginNote`: classify, normalize,
select a template by the `switch`, then generate; a rejection at either
stage is caught by the single try/catch and resolves to the fixed
fallback. -/
def generateMarginNoteAdaptive (classify : CollabBehavior)
    (g : Template → CollabBehavior) : AnnotationResult :=
  match classify with
  | .reject => adaptiveFallback
  | .success raw1 => generateStage g (selectTemplate (normalizeClassification raw1))

/-- Lifecycle state of the margin note of one paragraph index, as stored in
the `marginNotes` object of src/App.jsx: either no entry (`absent`, the
JS `undefined`) or an entry `{text, type, isVisible, isLoading}`. -/
inductive NoteState where
  | absent
  | note (text : String) (type : String) (isVisible : Bool) (isLoading : Bool)
deriving DecidableEq, Repr

/-- The placeholder entry written when a request is fired
(`{text: 'Thinking...', type: 'commentary', isVisible: true, isLoading: true}`). -/
def pendingNote : NoteState := .note "Thinking..." "commentary" true true

/-- The entry written when the client resolves with result `r`. -/
def resolvedNote (r : AnnotationResult) : NoteState := .note r.text r.type true false

/-- The note mapping, keyed by paragraph index; `absent` everywhere that the
JS object has no key. -/
abbrev NoteMap := Nat → NoteState

/-- Pointwise update of the note mapping, the effect of one
`setMarginNotes(prev => ({...prev, [i]: v}))`. -/
def setNote (m : NoteMap) (i : Nat) (v : NoteState) : NoteMap :=
  fun j => if j = i then v else m j

/-- Embedding of `generateMarginNoteForParagraph` (src/App.jsx lines
142-183): gate on trimmed length, then on an existing entry (JS truthiness
of `marginNotes[paragraphIndex]`, i.e. any non-absent entry), then write the
pending placeholder, await the client (which always resolves), and write
the resolved entry.  Returns the final mapping and whether a request was
fired.  The catch branch of the JS function is unreachable because
`generateMarginNote` never rejects. -/
def generateMarginNoteForParagraph (m : NoteMap) (idx : Nat) (text : String)
    (b : CollabBehavior) : NoteMap × Bool :=
  if (jsTrim text).length < 10 then (m, false)
  else if m idx ≠ NoteState.absent then (m, false)
  else
    (setNote (setNote m idx pendingNote) idx (resolvedNote (generateMarginNote b)), true)

/-- Embedding of `content.split('\n\n')` on character lists: scan left to
right, emitting the accumulated piece at each non-overlapping occurrence of
two consecutive line breaks.  `acc` holds the current piece reversed. -/
def splitNN : List Char → List Char → List (List Char)
  | [], acc => [acc.reverse]
  | '\n' :: '\n' :: rest, acc => acc.reverse :: splitNN rest []
  | c :: rest, acc => splitNN rest (c :: acc)

/-- Embedding of `content.split('\n\n')` on strings. -/
def jsSplitNN (s : String) : List String := (splitNN s.data []).map String.mk

/-- Interleave the blank-line delimiter back between split pieces; used to
state that `splitNN` loses nothing. -/
def joinNN : List (List Char) → List Char
  | [] => []
  | [p] => p
  | p :: rest => p ++ '\n' :: '\n' :: joinNN rest

/-- Embedding of the segmenter of src/App.jsx line 53:
`content.split('\n\n').filter(p => p.trim() !== '')`. -/
def paragraphsOf (content : String) : List String :=
  (jsSplitNN content).filter (fun p => decide (jsTrim p ≠ ""))

/-- Segmenter as the spec words it (section 4.1): walk the blank-line
split, discard entries that are blank after trimming, keep the rest in
order.  Stated separately from `paragraphsOf` so the code/spec agreement is
a theorem. -/
def segmentSpec : List String → List String
  | [] => []
  | p :: rest => if jsTrim p = "" then segmentSpec rest else p :: segmentSpec rest

/-- Spec-worded segmenter applied to a document. -/
def segmentSpecOf (d : String) : List String := segmentSpec (jsSplitNN d)

/-- State of the paragraph-count trigger of src/App.jsx: the
`prevParagraphCount` ref and the `marginNotes` mapping. -/
structure TriggerState where
  prevCount : Nat
  notes : NoteMap

/-- Embedding of the paragraph-count trigger effect (src/App.jsx lines
59-72) together with the note-lifecycle handler it invokes: on a document
snapshot, segment; if the paragraph count strictly increased, target
`length - 2` and, when `targetIndex >= 0 && paragraphs[targetIndex]` holds
(JS truthiness: the index is in range and the element is a non-empty
string), run `generateMarginNoteForParagraph`; always record the new count.
Returns the new state and the fired target index, if a request was
issued. -/
def observeDocument (s : TriggerState) (content : String) (b : CollabBehavior) :
    TriggerState × Option Nat :=
  let paras := paragraphsOf content
  if s.prevCount < paras.length then
    if 2 ≤ paras.length ∧ paras.getD (paras.length - 2) "" ≠ "" then
      let t := paras.length - 2
      let fired := generateMarginNoteForParagraph s.notes t (paras.getD t "") b
      ({ prevCount := paras.length, notes := fired.1 },
       if fired.2 then some t else none)
    else ({ prevCount := paras.length, notes := s.notes }, none)
  else ({ prevCount := paras.length, notes := s.notes }, none)

/-- Run the trigger over a sequence of document-change observations, each
paired with the collaborator behavior of the request it may fire; collect
the fired target indices in order. -/
def runTrigger (s : TriggerState) : List (String × CollabBehavior) → TriggerState × List Nat
  | [] => (s, [])
  | (c, b) :: evs =>
    let step := observeDocument s c b
    let rest := runTrigger step.1 evs
    (rest.1, (match step.2 with | some t => [t] | none => []) ++ rest.2)

/-- Layout metrics read by `calculateParagraphPositions`: the computed
padding-top and line-height of the textarea, and the measured
`offsetHeight` of the hidden div as a function of the paragraph text (the
browser measurement facility, modelled as an oracle). -/
structure LayoutMetrics where
  paddingTop : Int
  lineHeight : Int
  heightOf : String → Int

/-- Loop body of `calculateParagraphPositions` (src/App.jsx lines 101-113):
walk the enumerated unfiltered split, skip blank entries, record the
running `currentY` for each kept entry under its unfiltered index, and
advance by the measured height plus twice the line height. -/
def calcPositionsGo (m : LayoutMetrics) : List (Nat × String) → Int → List (Nat × Int)
  | [], _ => []
  | (i, para) :: rest, y =>
    if jsTrim para = "" then calcPositionsGo m rest y
    else (i, y) :: calcPositionsGo m rest (y + (m.heightOf para + m.lineHeight * 2))

/-- Embedding of `calculateParagraphPositions` (src/App.jsx lines 75-119):
split the content on blank lines without filtering, and fold the position
loop starting from the top padding.  The result is the `positions` object
as an association list. -/
def calculateParagraphPositions (m : LayoutMetrics) (content : String) :
    List (Nat × Int) :=
  calcPositionsGo m (jsSplitNN content).enum m.paddingTop

/-- Embedding of the startup load of the persisted note mapping
(src/App.jsx lines 29-39): read `chatMargins-notes`; if the value is absent
or empty (JS falsiness of `savedNotes`) the mapping stays empty; otherwise
the stored string is handed to the parse collaborator (`JSON.parse`) with
no surrounding error handling, so its outcome — success or error — is the
outcome of the load. -/
def loadNotes {α : Type} (empty : α) (parse : String → Except String α)
    (saved : Option String) : Except String α :=
  match saved with
  | none => Except.ok empty
  | some s => if s = "" then Except.ok empty else parse s

/-- Drop JSON insignificant whitespace. -/
def skipJsonWs (l : List Char) : List Char :=
  l.dropWhile (fun c => c = ' ' || c = '\t' || c = '\n' || c = '\r')

/-- Consume the tail of a JSON string literal after its opening quote;
returns the remainder after the closing quote.  Escapes are modelled as a
backslash protecting the next character. -/
def jsonStringTail : List Char → Option (List Char)
  | [] => none
  | '"' :: rest => some rest
  | '\\' :: _ :: rest => jsonStringTail rest
  | '\\' :: [] => none
  | _ :: rest => jsonStringTail rest

/-- Consume the tail of a JSON number after its first character. -/
def jsonNumTail (l : List Char) : List Char :=
  l.dropWhile (fun c => c.isDigit || c = '.' || c = '-' || c = '+' || c = 'e' || c = 'E')

/-- Which JSON production `jsonRun` is consuming: a value, the member list
of an object after `{`, or the element list of an array after `[`. -/
inductive JsonMode where
  | value
  | members
  | elements
deriving DecidableEq, Repr

/-- Modelled from the spec: the key/value persistence collaborator stores
the note mapping as a serialized JSON blob re-parsed on load (`JSON.parse`,
external to the repository).  Recursive-descent syntax checker over the
JSON grammar (strings, objects, arrays, numbers, booleans, null), fuelled
by input length; consumes one production and returns the remaining input,
or `none` on a syntax error. -/
def jsonRun : Nat → JsonMode → List Char → Option (List Char)
  | 0, _, _ => none
  | fuel + 1, .value, l =>
    match skipJsonWs l with
    | '"' :: rest => jsonStringTail rest
    | '{' :: rest =>
      match skipJsonWs rest with
      | '}' :: rest2 => some rest2
      | rest2 => jsonRun fuel .members rest2
    | '[' :: rest =>
      match skipJsonWs rest with
      | ']' :: rest2 => some rest2
      | rest2 => jsonRun fuel .elements rest2
    | 't' :: 'r' :: 'u' :: 'e' :: rest => some rest
    | 'f' :: 'a' :: 'l' :: 's' :: 'e' :: rest => some rest
    | 'n' :: 'u' :: 'l' :: 'l' :: rest => some rest
    | c :: rest => if c.isDigit || c = '-' then some (jsonNumTail rest) else none
    | [] => none
  | fuel + 1, .members, l =>
    match skipJsonWs l with
    | '"' :: rest =>
      match jsonStringTail rest with
      | none => none
      | some rest2 =>
        match skipJsonWs rest2 with
        | ':' :: rest3 =>
          match jsonRun fuel .value rest3 with
          | none => none
          | some rest4 =>
            match skipJsonWs rest4 with
            | ',' :: rest5 => jsonRun fuel .members rest5
            | '}' :: rest5 => some rest5
            | _ => none
        | _ => none
    | _ => none
  | fuel + 1, .elements, l =>
    match jsonRun fuel .value l with
    | none => none
    | some rest =>
      match skipJsonWs rest with
      | ',' :: rest2 => jsonRun fuel .elements rest2
      | ']' :: rest2 => some rest2
      | _ => none

/-- Modelled from the spec: `JSON.parse` as used on the persisted note
mapping — succeeds exactly when the stored string is one well-formed JSON
value followed only by whitespace, and otherwise raises a syntax error. -/
def jsonParseModel (s : String) : Except String Unit :=
  match jsonRun (s.length + 1) .value s.data with
  | none => Except.error "SyntaxError: unexpected token in JSON"
  | some rest =>
    if (skipJsonWs rest).isEmpty then Except.ok ()
    else Except.error "SyntaxError: unexpected character after JSON data"

/-- The empty note mapping (the initial `marginNotes` object). -/
def emptyNotes : NoteMap := fun _ => NoteState.absent

/-- Degenerate layout metrics used to evaluate the position tracker on
concrete documents. -/
def flatMetrics : LayoutMetrics :=
  { paddingTop := 0, lineHeight := 0, heightOf := fun _ => 0 }

/-- Sample non-degenerate layout metrics with non-negative fields. -/
def sampleMetrics : LayoutMetrics :=
  { paddingTop := 24, lineHeight := 6, heightOf := fun _ => 17 }

theorem startsWithCI_lower_take (pat : List Char) :
    ∀ s : List Char, startsWithCI pat s = true →
      lowerL (s.take pat.length) = lowerL pat := by
  induction pat with
  | nil => intro s _; simp [lowerL]
  | cons p ps ih =>
    intro s h
    cases s with
    | nil => simp [startsWithCI] at h
    | cons c cs =>
      simp only [startsWithCI, Bool.and_eq_true, beq_iff_eq] at h
      simp only [List.length_cons, List.take_succ_cons, lowerL, List.map_cons]
      have ht := ih cs h.2
      simp only [lowerL] at ht
      rw [← h.1, ht]

theorem typeScan_lower {cap : List Char} :
    ∀ l : List Char, typeScan l = some cap →
      lowerL cap = "commentary".data ∨ lowerL cap = "question".data := by
  intro l
  induction l with
  | nil => intro h; simp [typeScan] at h
  | cons c rest ih =>
    intro h
    simp only [typeScan] at h
    split_ifs at h with h1 h2 h3
    · left
      have hcap := Option.some.inj h
      subst hcap
      have h10 : ("commentary".data).length = 10 := rfl
      have := startsWithCI_lower_take "commentary".data _ h2
      rw [h10] at this
      exact this.trans rfl
    · right
      have hcap := Option.some.inj h
      subst hcap
      have h8 : ("question".data).length = 8 := rfl
      have := startsWithCI_lower_take "question".data _ h3
      rw [h8] at this
      exact this.trans rfl
    · exact ih h
    · exact ih h

theorem parseResponse_type (s : String) :
    (parseResponse s).type = "commentary" ∨ (parseResponse s).type = "question" := by
  unfold parseResponse
  cases htype : typeScan s.data with
  | none => cases textScan s.data <;> simp
  | some cap =>
    cases htext : textScan s.data with
    | none => simp
    | some body =>
      simp only []
      rcases typeScan_lower s.data htype with h | h
      · left; show String.mk (lowerL cap) = "commentary"; rw [h]
      · right; show String.mk (lowerL cap) = "question"; rw [h]

/-- C1 (amended): for every collaborator behavior — success with
well-formed output, success with malformed output, or rejection at either
stage — both annotate operations (`generateMarginNote` of src/gemini.js and
the adaptive two-stage variant) resolve to a value whose kind is one of
`commentary`/`question`; being total Lean functions into
`AnnotationResult`, they never reject.  The original claim additionally
required the text to be non-empty, which fails (see the counterexample,
which exhibits empty text both from a malformed output trimming to empty
and from a well-formed response whose `TEXT` body trims to empty); the
amended claim drops the non-emptiness guarantee and asserts only kind
membership and totality. -/
theorem C1_annotate_total_recognized_kind :
    (∀ b, (generateMarginNote b).type = "commentary" ∨
      (generateMarginNote b).type = "question") ∧
    (∀ c g, (generateMarginNoteAdaptive c g).type = "commentary" ∨
      (generateMarginNoteAdaptive c g).type = "question") := by
  constructor
  · intro b
    cases b with
    | success raw => exact parseResponse_type raw
    | reject => left; rfl
  · intro c g
    cases c with
    | reject => left; rfl
    | success raw1 =>
      show (generateStage g _).type = _ ∨ (generateStage g _).type = _
      unfold generateStage
      cases g (selectTemplate (normalizeClassification raw1)) with
      | reject => left; rfl
      | success raw2 => exact parseResponse_type raw2

/-- C1 counterexample: the claim "text is a non-empty string" is false,
on two distinct paths — a success whose output trims to the empty string
degrades through the parse miss to commentary with empty text, and even a
well-formed response with both markers and a recognized kind yields empty
text through the matched branch when its `TEXT` body trims to empty (the
`\s*`-backtracked capture is a lone whitespace character). -/
theorem C1_counterexample_empty_text :
    ¬ (∀ b, (generateMarginNote b).text ≠ "") ∧
    (generateMarginNote (CollabBehavior.success "TYPE: commentary\nTEXT: ")).text =
      "" ∧
    (generateMarginNote (CollabBehavior.success "TYPE: commentary\nTEXT: ")).type =
      "commentary" :=
  ⟨fun h => h (CollabBehavior.success " ") rfl, rfl, rfl⟩

theorem segmentSpec_eq_filter :
    ∀ l : List String, segmentSpec l = l.filter (fun p => decide (jsTrim p ≠ "")) := by
  intro l
  induction l with
  | nil => rfl
  | cons p rest ih =>
    by_cases h : jsTrim p = ""
    · simp [segmentSpec, h, List.filter, ih]
    · simp [segmentSpec, h, List.filter, ih]

theorem splitNN_ne_nil : ∀ (l acc : List Char), splitNN l acc ≠ [] := by
  intro l acc
  induction l, acc using splitNN.induct <;> (simp [splitNN]; try assumption)

theorem joinNN_cons (p : List Char) (q : List (List Char)) (h : q ≠ []) :
    joinNN (p :: q) = p ++ '\n' :: '\n' :: joinNN q := by
  cases q with
  | nil => exact absurd rfl h
  | cons r t => rfl

theorem splitNN_join : ∀ (l acc : List Char), joinNN (splitNN l acc) = acc.reverse ++ l := by
  intro l acc
  induction l, acc using splitNN.induct with
  | case1 acc => simp [splitNN, joinNN]
  | case2 rest acc ih =>
    simp only [splitNN]
    rw [joinNN_cons _ _ (splitNN_ne_nil rest [])]
    simp at ih
    simp [ih]
  | case3 c rest acc h ih =>
    simp only [splitNN]
    rw [ih]
    simp

/-- C5: the segmenter `paragraphsOf` splits the document on two consecutive
line breaks (`joinNN` of the raw split restores the document, so the split
loses nothing and its boundaries are exactly the blank-line delimiters),
discards entries that are blank after trimming, and keeps the remaining
paragraphs in order, equal to the spec-worded recursion `segmentSpecOf`;
every kept paragraph is non-blank after trimming.  Purity, totality and
determinism (re-running on an unchanged document yields identical
paragraphs and indices) hold because `paragraphsOf` is a total Lean
function of the document alone. -/
theorem C5_segmentation (d : String) :
    paragraphsOf d = segmentSpecOf d ∧
    (∀ p ∈ paragraphsOf d, jsTrim p ≠ "") ∧
    joinNN (splitNN d.data []) = d.data := by
  refine ⟨?_, ?_, ?_⟩
  · rw [paragraphsOf, segmentSpecOf, segmentSpec_eq_filter]
  · intro p hp
    rw [paragraphsOf] at hp
    have := List.of_mem_filter hp
    simpa using this
  · simpa using splitNN_join d.data []

/-- C5 witness: on a concrete two-paragraph document the segmenter keeps
the non-blank trimmed paragraph `"alpha"`. -/
theorem C5_segmentation_witness : jsTrim "alpha" ≠ "" :=
  (C5_segmentation "alpha\n\n \n\nbeta").2.1 "alpha" (by decide)

/-- C6: in the generation-stage parser, if the `TYPE` marker fails to match
(absent, or its value is not one of the two recognized kinds — the regex
`/TYPE:\s*(commentary|question)/i` only matches recognized values) or the
`TEXT` marker is absent, the client returns kind `commentary` with the
entire raw output trimmed; when both match, it returns the captured kind
lower-cased — necessarily `commentary` or `question` — and the trimmed
captured body. -/
theorem C6_parse_malformed_fallback (raw : String) :
    ((typeScan raw.data = none ∨ textScan raw.data = none) →
      parseResponse raw = { type := "commentary", text := jsTrim raw }) ∧
    (∀ cap body, typeScan raw.data = some cap → textScan raw.data = some body →
      parseResponse raw =
        { type := String.mk (lowerL cap), text := jsTrim (String.mk body) } ∧
      (String.mk (lowerL cap) = "commentary" ∨ String.mk (lowerL cap) = "question")) := by
  constructor
  · intro h
    unfold parseResponse
    rcases h with h | h
    · rw [h]
    · rw [h]
      cases typeScan raw.data <;> rfl
  · intro cap body h1 h2
    refine ⟨?_, ?_⟩
    · unfold parseResponse
      rw [h1, h2]
    · rcases typeScan_lower raw.data h1 with h | h
      · left; show String.mk (lowerL cap) = "commentary"; rw [h]
      · right; show String.mk (lowerL cap) = "question"; rw [h]

/-- C6 witness: a well-formed response parses into its recognized kind and
trimmed body. -/
theorem C6_parse_malformed_fallback_witness :
    parseResponse "TYPE: question\nTEXT: ok then" =
      { type := "question", text := "ok then" } :=
  ((C6_parse_malformed_fallback "TYPE: question\nTEXT: ok then").2
    "question".data "ok then".data rfl rfl).1

theorem gmfp_fired_iff (m : NoteMap) (idx : Nat) (text : String) (b : CollabBehavior) :
    (generateMarginNoteForParagraph m idx text b).2 = true ↔
      (10 ≤ (jsTrim text).length ∧ m idx = NoteState.absent) := by
  unfold generateMarginNoteForParagraph
  split_ifs with h1 h2
  · constructor
    · intro hf
      exact absurd hf (by simp)
    · rintro ⟨h10, -⟩
      exact absurd h10 (by omega)
  · constructor
    · intro hf
      exact absurd hf (by simp)
    · rintro ⟨-, habs⟩
      exact absurd habs h2
  · exact ⟨fun _ => ⟨by omega, not_not.mp h2⟩, fun _ => rfl⟩

/-- C8: the eligibility gate of `generateMarginNoteForParagraph` fires a
request only if the paragraph text, trimmed, has at least 10 characters:
for every trimmed length below 10 the mapping is unchanged and nothing
fires, whatever the note state and collaborator behavior (a request fires
exactly when the trimmed length is at least 10 and the entry is absent);
at the boundary, trimmed length 9 never fires and trimmed length 10 with
an `absent` entry fires and resolves the entry. -/
theorem C8_length_gate (m : NoteMap) (idx : Nat) (text : String) (b : CollabBehavior) :
    ((jsTrim text).length < 10 →
      generateMarginNoteForParagraph m idx text b = (m, false)) ∧
    ((generateMarginNoteForParagraph m idx text b).2 = true ↔
      (10 ≤ (jsTrim text).length ∧ m idx = NoteState.absent)) ∧
    ((jsTrim text).length = 9 →
      generateMarginNoteForParagraph m idx text b = (m, false)) ∧
    ((jsTrim text).length = 10 → m idx = NoteState.absent →
      (generateMarginNoteForParagraph m idx text b).2 = true ∧
      (generateMarginNoteForParagraph m idx text b).1 idx =
        resolvedNote (generateMarginNote b)) := by
  refine ⟨?_, gmfp_fired_iff m idx text b, ?_, ?_⟩
  · intro hlt
    simp [generateMarginNoteForParagraph, hlt]
  · intro h9
    have : (jsTrim text).length < 10 := by omega
    simp [generateMarginNoteForParagraph, this]
  · intro h10 habs
    have hn : ¬ (jsTrim text).length < 10 := by omega
    simp [generateMarginNoteForParagraph, hn, habs, setNote]

/-- C8 witness: a five-character paragraph is suppressed, the boundary
inputs of the spec behave as stated — nine `a`s never fire, ten `a`s fire
on an absent entry. -/
theorem C8_length_gate_witness :
    generateMarginNoteForParagraph emptyNotes 0 "short" CollabBehavior.reject =
      (emptyNotes, false) ∧
    generateMarginNoteForParagraph emptyNotes 0 "aaaaaaaaa" CollabBehavior.reject =
      (emptyNotes, false) ∧
    (generateMarginNoteForParagraph emptyNotes 0 "aaaaaaaaaa" CollabBehavior.reject).2 =
      true :=
  ⟨(C8_length_gate emptyNotes 0 "short" CollabBehavior.reject).1 (by decide),
   (C8_length_gate emptyNotes 0 "aaaaaaaaa" CollabBehavior.reject).2.2.1 (by decide),
   ((C8_length_gate emptyNotes 0 "aaaaaaaaaa" CollabBehavior.reject).2.2.2
     (by decide) rfl).1⟩

/-- C2: for every fired request (gate passed: trimmed length at least 10,
entry absent), the handler first writes the pending placeholder at the
target index, and the whole run rewrites that index with the resolved
entry built from the client result — which, the client being total, exists
for every collaborator behavior; the final entry is never the pending
placeholder, and on collaborator failure it carries the fixed fallback
message.  No exception escapes: the embedding is a total function, and the
JS catch branch is unreachable because `generateMarginNote` always
resolves. -/
theorem C2_lifecycle_no_stuck_pending (m : NoteMap) (idx : Nat) (text : String)
    (b : CollabBehavior) (hlen : ¬ (jsTrim text).length < 10)
    (habs : m idx = NoteState.absent) :
    (setNote m idx pendingNote) idx = pendingNote ∧
    generateMarginNoteForParagraph m idx text b =
      (setNote (setNote m idx pendingNote) idx (resolvedNote (generateMarginNote b)),
       true) ∧
    (generateMarginNoteForParagraph m idx text b).1 idx =
      resolvedNote (generateMarginNote b) ∧
    (generateMarginNoteForParagraph m idx text b).1 idx ≠ pendingNote ∧
    (b = CollabBehavior.reject →
      (generateMarginNoteForParagraph m idx text b).1 idx =
        NoteState.note "I\x27m having trouble connecting right now. Try again in a moment."
          "commentary" true false) := by
  have hfin : generateMarginNoteForParagraph m idx text b =
      (setNote (setNote m idx pendingNote) idx (resolvedNote (generateMarginNote b)),
       true) := by
    simp [generateMarginNoteForParagraph, hlen, habs]
  refine ⟨by simp [setNote], hfin, ?_, ?_, ?_⟩
  · rw [hfin]; simp [setNote]
  · rw [hfin]; simp [setNote, resolvedNote, pendingNote]
  · intro hb
    rw [hfin, hb]
    simp [setNote, resolvedNote, generateMarginNote, connectFallback]

/-- C2 witness: on a concrete fired request whose collaborator rejects,
the entry ends resolved with the fixed fallback message, not pending. -/
theorem C2_lifecycle_no_stuck_pending_witness :
    (generateMarginNoteForParagraph emptyNotes 0 "aaaaaaaaaa" CollabBehavior.reject).1 0 =
      NoteState.note "I\x27m having trouble connecting right now. Try again in a moment."
        "commentary" true false :=
  (C2_lifecycle_no_stuck_pending emptyNotes 0 "aaaaaaaaaa" CollabBehavior.reject
    (by decide) rfl).2.2.2.2 rfl

theorem gmfp_preserves_nonabsent (m : NoteMap) (idx : Nat) (text : String)
    (b : CollabBehavior) (i : Nat) (h : m i ≠ NoteState.absent) :
    (generateMarginNoteForParagraph m idx text b).1 i ≠ NoteState.absent := by
  unfold generateMarginNoteForParagraph
  split_ifs with h1 h2
  · exact h
  · exact h
  · simp only [setNote]
    by_cases hi : i = idx
    · simp [hi, resolvedNote]
    · simpa [hi] using h

theorem gmfp_fired_post (m : NoteMap) (idx : Nat) (text : String) (b : CollabBehavior)
    (h : (generateMarginNoteForParagraph m idx text b).2 = true) :
    (generateMarginNoteForParagraph m idx text b).1 idx ≠ NoteState.absent := by
  unfold generateMarginNoteForParagraph at h ⊢
  split_ifs at h ⊢ with h1 h2
  all_goals simp_all [setNote, resolvedNote]

theorem observe_preserves (s : TriggerState) (c : String) (b : CollabBehavior) (i : Nat)
    (h : s.notes i ≠ NoteState.absent) :
    (observeDocument s c b).1.notes i ≠ NoteState.absent := by
  simp only [observeDocument]
  split_ifs
  all_goals simp
  all_goals first
    | exact gmfp_preserves_nonabsent _ _ _ _ _ h
    | exact h

theorem observe_fired (s : TriggerState) (c : String) (b : CollabBehavior) (i : Nat)
    (h : (observeDocument s c b).2 = some i) :
    s.notes i = NoteState.absent ∧
    (observeDocument s c b).1.notes i ≠ NoteState.absent := by
  simp only [observeDocument] at h ⊢
  split_ifs at h ⊢ with h1 h2 hf
  · simp only [Option.some.injEq] at h
    subst h
    refine ⟨((gmfp_fired_iff _ _ _ b).mp hf).2, ?_⟩
    simpa using gmfp_fired_post _ _ _ b hf

theorem runTrigger_count_zero :
    ∀ (evs : List (String × CollabBehavior)) (s : TriggerState) (i : Nat),
      s.notes i ≠ NoteState.absent → (runTrigger s evs).2.count i = 0 := by
  intro evs
  induction evs with
  | nil => intro s i h; simp [runTrigger]
  | cons e evs ih =>
    intro s i h
    obtain ⟨c, b⟩ := e
    simp only [runTrigger]
    rcases hstep : (observeDocument s c b).2 with _ | t
    · simpa [hstep] using ih _ i (observe_preserves s c b i h)
    · have hne : t ≠ i := by
        intro hti
        subst hti
        exact h (observe_fired s c b t hstep).1
      simp [hstep, List.count_cons, hne, ih _ i (observe_preserves s c b i h)]

theorem runTrigger_count_le_one :
    ∀ (evs : List (String × CollabBehavior)) (s : TriggerState) (i : Nat),
      (runTrigger s evs).2.count i ≤ 1 := by
  intro evs
  induction evs with
  | nil => intro s i; simp [runTrigger]
  | cons e evs ih =>
    intro s i
    obtain ⟨c, b⟩ := e
    simp only [runTrigger]
    rcases hstep : (observeDocument s c b).2 with _ | t
    · simpa [hstep] using ih _ i
    · by_cases hti : t = i
      · subst hti
        have hz := runTrigger_count_zero evs _ t (observe_fired s c b t hstep).2
        simp [hstep, hz]
      · simpa [hstep, List.count_cons, hti] using ih _ i

/-- C3: over any sequence of document-change observations, at most one
request is ever fired for a given paragraph index — once an index holds a
non-absent entry it is never re-triggered, so an index starting non-absent
fires zero times; in particular a sequence that raises the paragraph count
by one fires at most one request for the newly eligible index. -/
theorem C3_no_duplicate_requests (s : TriggerState)
    (evs : List (String × CollabBehavior)) (i : Nat) :
    (runTrigger s evs).2.count i ≤ 1 ∧
    (s.notes i ≠ NoteState.absent → (runTrigger s evs).2.count i = 0) :=
  ⟨runTrigger_count_le_one evs s i, fun h => runTrigger_count_zero evs s i h⟩

/-- C3 witness: with index 0 already pending, a count-increasing
observation fires nothing for index 0. -/
theorem C3_no_duplicate_requests_witness :
    (runTrigger ⟨1, fun _ => pendingNote⟩
      [("first paragraph text\n\nsecond paragraph text", CollabBehavior.reject)]).2.count 0
      = 0 :=
  (C3_no_duplicate_requests ⟨1, fun _ => pendingNote⟩
    [("first paragraph text\n\nsecond paragraph text", CollabBehavior.reject)] 0).2
    (by decide)

/-- C4 (amended): on a document-change observation a request is issued
only when the segmented paragraph count strictly increases relative to the
previous observation — and then only when the target index
`newCount - 2` exists (`newCount ≥ 2`) and passes the eligibility gate
(trimmed length at least 10, note state absent); every issued request
targets exactly index `newCount - 2`, and no request is issued when the
count stays equal or decreases.  The original "exactly when the count
strictly increases" is refuted by the counterexample (a 0 → 1 increase has
no second-to-last paragraph and issues nothing). -/
theorem C4_trigger_characterization (s : TriggerState) (c : String) (b : CollabBehavior) :
    ((observeDocument s c b).2 ≠ none ↔
      (s.prevCount < (paragraphsOf c).length ∧ 2 ≤ (paragraphsOf c).length ∧
       10 ≤ (jsTrim ((paragraphsOf c).getD ((paragraphsOf c).length - 2) "")).length ∧
       s.notes ((paragraphsOf c).length - 2) = NoteState.absent)) ∧
    (∀ t, (observeDocument s c b).2 = some t → t = (paragraphsOf c).length - 2) ∧
    ((paragraphsOf c).length ≤ s.prevCount → (observeDocument s c b).2 = none) ∧
    (observeDocument s c b).1.prevCount = (paragraphsOf c).length := by
  have hne : ∀ p : String, 10 ≤ (jsTrim p).length → p ≠ "" := by
    intro p hp he
    subst he
    exact absurd hp (by decide)
  simp only [observeDocument]
  split_ifs with h1 h2 hf
  · refine ⟨iff_of_true (by simp) ⟨h1, h2.1, ?_, ?_⟩, ?_, ?_, rfl⟩
    · exact ((gmfp_fired_iff _ _ _ b).mp hf).1
    · exact ((gmfp_fired_iff _ _ _ b).mp hf).2
    · intro t ht
      exact (Option.some.inj ht).symm
    · intro hle
      exact absurd h1 (by omega)
  · refine ⟨iff_of_false (by simp) ?_, ?_, fun _ => rfl, rfl⟩
    · rintro ⟨-, -, h10, habs⟩
      exact hf ((gmfp_fired_iff _ _ _ b).mpr ⟨h10, habs⟩)
    · intro t ht
      exact absurd ht (by simp)
  · refine ⟨iff_of_false (by simp) ?_, ?_, fun _ => rfl, rfl⟩
    · rintro ⟨-, hlen2, h10, -⟩
      exact h2 ⟨hlen2, hne _ h10⟩
    · intro t ht
      exact absurd ht (by simp)
  · refine ⟨iff_of_false (by simp) ?_, ?_, fun _ => rfl, rfl⟩
    · rintro ⟨h1', -, -, -⟩
      exact h1 h1'
    · intro t ht
      exact absurd ht (by simp)

/-- C4 counterexample: a strict paragraph-count increase from 0 to 1 issues
no request — the target index `newCount - 2` does not exist — so "a request
is issued exactly when the count strictly increases" is false. -/
theorem C4_counterexample :
    0 < (paragraphsOf "hello world today").length ∧
    (observeDocument ⟨0, emptyNotes⟩ "hello world today" CollabBehavior.reject).2 =
      none := by
  exact ⟨by decide, rfl⟩

/-- C4 witness: an observation whose paragraph count does not exceed the
previous count issues nothing. -/
theorem C4_trigger_characterization_witness :
    (observeDocument ⟨3, emptyNotes⟩ "one paragraph only here"
      CollabBehavior.reject).2 = none :=
  (C4_trigger_characterization ⟨3, emptyNotes⟩ "one paragraph only here"
    CollabBehavior.reject).2.2.1 (by decide)

/-- C7: the Stage-1 classification output is normalized by trimming and
lower-casing; each of the six labels selects its own strategy template
(`other` selecting the generic fallback template, the spec's template for
that label), and any normalized output outside the six labels — such as
`"poetry"` — makes the generate stage run with the fallback template. -/
theorem C7_classification_fallback (raw : String) :
    normalizeClassification raw = jsToLower (jsTrim raw) ∧
    selectTemplate "journaling" = Template.journaling ∧
    selectTemplate "brainstorming" = Template.brainstorming ∧
    selectTemplate "technical" = Template.technical ∧
    selectTemplate "storytelling" = Template.storytelling ∧
    selectTemplate "note-taking" = Template.noteTaking ∧
    selectTemplate "other" = Template.fallback ∧
    (normalizeClassification raw ∉
        (["journaling", "brainstorming", "technical", "storytelling",
          "note-taking", "other"] : List String) →
      selectTemplate (normalizeClassification raw) = Template.fallback) ∧
    (∀ g : Template → CollabBehavior,
      generateMarginNoteAdaptive (CollabBehavior.success "poetry") g =
        generateStage g Template.fallback) := by
  refine ⟨rfl, rfl, rfl, rfl, rfl, rfl, rfl, ?_, fun g => rfl⟩
  intro hmem
  simp only [List.mem_cons, List.not_mem_nil, or_false, not_or] at hmem
  obtain ⟨n1, n2, n3, n4, n5, n6⟩ := hmem
  simp [selectTemplate, n1, n2, n3, n4, n5]

/-- C7 witness: the unrecognized classification `"poetry"` selects the
fallback template. -/
theorem C7_classification_fallback_witness :
    selectTemplate (normalizeClassification "poetry") = Template.fallback :=
  (C7_classification_fallback "poetry").2.2.2.2.2.2.2.1 (by decide)

/-- C9 (amended): the startup load treats an absent or empty stored value
as the empty mapping and a parsable stored value as the parsed mapping,
but a stored value on which the parse collaborator fails makes the whole
load propagate that error — the code wraps `JSON.parse` in no error
handling, so the load is not total on malformed persisted data. -/
theorem C9_load_error_propagates {α : Type} (empty : α)
    (parse : String → Except String α) :
    loadNotes empty parse none = Except.ok empty ∧
    loadNotes empty parse (some "") = Except.ok empty ∧
    (∀ s v, s ≠ "" → parse s = Except.ok v →
      loadNotes empty parse (some s) = Except.ok v) ∧
    (∀ s e, s ≠ "" → parse s = Except.error e →
      loadNotes empty parse (some s) = Except.error e) := by
  refine ⟨rfl, rfl, ?_, ?_⟩
  · intro s v hs hp
    simp [loadNotes, hs, hp]
  · intro s e hs hp
    simp [loadNotes, hs, hp]

/-- C9 counterexample: under the JSON.parse model, the malformed stored
value `"not json"` makes the load produce a propagated syntax error, not a
valid (empty) note mapping — refuting totality of the startup load. -/
theorem C9_counterexample :
    ¬ (∀ saved : Option String, ∃ v, loadNotes () jsonParseModel saved =
        Except.ok v) := by
  intro h
  rcases h (some "not json") with ⟨v, hv⟩
  rw [show loadNotes () jsonParseModel (some "not json") =
    Except.error "SyntaxError: unexpected token in JSON" from rfl] at hv
  exact Except.noConfusion hv

/-- C9 witness: the malformed stored value `"\x7b"` propagates the model
parse error through the load. -/
theorem C9_load_error_propagates_witness :
    loadNotes () jsonParseModel (some "\x7b") =
      Except.error "SyntaxError: unexpected token in JSON" :=
  (C9_load_error_propagates () jsonParseModel).2.2.2 "\x7b" _ (by decide) rfl

theorem calcPositionsGo_keys (m : LayoutMetrics) :
    ∀ (l : List (Nat × String)) (y : Int),
      (calcPositionsGo m l y).map Prod.fst =
        (l.filter (fun ip => decide (jsTrim ip.2 ≠ ""))).map Prod.fst := by
  intro l
  induction l with
  | nil => intro y; rfl
  | cons ip rest ih =>
    intro y
    obtain ⟨i, p⟩ := ip
    by_cases h : jsTrim p = ""
    · simp [calcPositionsGo, h, List.filter, ih]
    · simp [calcPositionsGo, h, List.filter, ih]

theorem calcPositionsGo_nonneg (m : LayoutMetrics) (hl : 0 ≤ m.lineHeight)
    (hh : ∀ p, 0 ≤ m.heightOf p) :
    ∀ (l : List (Nat × String)) (y : Int), 0 ≤ y →
      ∀ iy ∈ calcPositionsGo m l y, 0 ≤ iy.2 := by
  intro l
  induction l with
  | nil =>
    intro y hy iy hiy
    simp [calcPositionsGo] at hiy
  | cons ip rest ih =>
    intro y hy iy hiy
    obtain ⟨i, p⟩ := ip
    by_cases h : jsTrim p = ""
    · rw [calcPositionsGo, if_pos h] at hiy
      exact ih y hy iy hiy
    · rw [calcPositionsGo, if_neg h] at hiy
      rcases List.mem_cons.mp hiy with he | ht
      · rw [he]
        exact hy
      · refine ih _ ?_ iy ht
        have := hh p
        omega

/-- C10 (amended): the position recomputation yields a map defined on
exactly the indices of the entries of the *unfiltered* blank-line split
that are non-blank after trimming (these coincide with the segmented
paragraph indices only when no blank entry precedes a non-blank one — see
the counterexample), and every stored vertical offset is non-negative
provided the layout metrics (top padding, line height, measured heights)
are non-negative, as computed CSS metrics are. -/
theorem C10_position_map (m : LayoutMetrics) (content : String)
    (hl : 0 ≤ m.lineHeight) (hh : ∀ p, 0 ≤ m.heightOf p) (hp : 0 ≤ m.paddingTop) :
    (calculateParagraphPositions m content).map Prod.fst =
      (((jsSplitNN content).enum).filter
        (fun ip => decide (jsTrim ip.2 ≠ ""))).map Prod.fst ∧
    ∀ iy ∈ calculateParagraphPositions m content, 0 ≤ iy.2 :=
  ⟨calcPositionsGo_keys m _ _,
   fun iy h => calcPositionsGo_nonneg m hl hh _ _ hp iy h⟩

/-- C10 counterexample: on `"hello\n\n \n\nworld spam"` the position map
stores key 2 (the unfiltered index of the third split entry) while the
segmented document has paragraph indices 0 and 1 only, so the map is not
defined on exactly the segmented paragraph indices. -/
theorem C10_counterexample :
    2 ∈ (calculateParagraphPositions flatMetrics "hello\n\n \n\nworld spam").map
      Prod.fst ∧
    (paragraphsOf "hello\n\n \n\nworld spam").length = 2 ∧
    ¬ ((calculateParagraphPositions flatMetrics "hello\n\n \n\nworld spam").map
        Prod.fst =
      List.range (paragraphsOf "hello\n\n \n\nworld spam").length) :=
  ⟨by decide, by decide, by decide⟩

/-- C10 witness: on a concrete document with non-negative metrics the keys
of the position map are the non-blank indices of the unfiltered split. -/
theorem C10_position_map_witness :
    (calculateParagraphPositions sampleMetrics "ab\n\ncd").map Prod.fst =
      (((jsSplitNN "ab\n\ncd").enum).filter
        (fun ip => decide (jsTrim ip.2 ≠ ""))).map Prod.fst :=
  (C10_position_map sampleMetrics "ab\n\ncd" (by decide)
    (fun _ => by change (0 : Int) ≤ 17; decide) (by decide)).1

end ChatMargins
